import Mathlib

/-!
Shallow embedding of the vectorized gym environment manager
(`gym_wrapper/wrapper_win.py`) and of the DQN constructor guard
(`Algorithms/tf2algos/dqn.py`), with theorems settling the spec's claims.

Python exceptions are modelled by an explicit error type; a Python function
that can raise is embedded as a Lean function into `Except PyError _`.
`None` is modelled by `Option.none`.
-/

namespace RLs

/-- Kinds of Python runtime errors arising in the embedded code. -/
inductive PyError
  | assertionError (msg : String)
  | nameError (name : String)
  | valueError (msg : String)
  | typeError (msg : String)
  | attributeError (msg : String)
  | indexError
  deriving DecidableEq, Repr

/-! ## FakeMultiThread (wrapper_win.py lines 8-22)

`run()` executes `self.result = self.func(*self.args)`; when the call raises,
the `result` attribute is never assigned.  `get_result()` reads `self.result`
and returns Python `None` when the attribute is missing. -/

/-- A `FakeMultiThread` after its `run()` has finished: `result` holds the
value of `self.func(*self.args)` when the call returned, and is unset
(`none`) when the call raised. -/
structure FakeMultiThread (α : Type) where
  result : Option α
  deriving DecidableEq, Repr

/-- FakeMultiThread.run: assigns `self.result` when the wrapped call returns;
an exception inside a Python thread is swallowed by the threading module, so
a raising task leaves `result` unset. -/
def FakeMultiThread.run (task : Except PyError α) : FakeMultiThread α :=
  ⟨task.toOption⟩

/-- FakeMultiThread.get_result: returns `self.result`, or Python `None` when
reading the attribute raises (the task had failed, so `result` was never
assigned). -/
def FakeMultiThread.get_result (t : FakeMultiThread α) : Option α :=
  t.result

/-! ## The manager's `dones_index` field

`reset()` assigns the Python list `[]` to `self.dones_index` while `step()`
assigns the numpy array `np.where(done)[0]`.  The two carry different Python
types (`list` has no `.shape` attribute), which `partial_reset` observes, so
the embedding records which of the two assignments produced the value. -/

/-- The `dones_index` attribute: a Python `list` (as assigned by `reset`) or
a numpy array (as assigned by `step`). -/
inductive DonesIndex
  | pylist (l : List Nat)
  | ndarray (l : List Nat)
  deriving DecidableEq, Repr

/-! ## gym_envs.reset (lines 165-176)

One `FakeMultiThread` per environment runs `envs[i].reset`; after joining,
the batch is `[threadpool[i].get_result() for i in range(n)]`.  The call
itself never raises: a failed slot contributes `None`.  Each environment's
behaviour at this call is its `reset()` outcome, passed in slot order. -/

/-- gym_envs.reset: sets `dones_index = []` (a Python list), spawns one reset
task per environment, joins, and collects `get_result()` per slot in order.
Returns the observation batch and the new `dones_index`. -/
def gym_reset (resets : List (Except PyError σ)) :
    List (Option σ) × DonesIndex :=
  (resets.map (fun t => (FakeMultiThread.run t).get_result), .pylist [])

/-! ## gym_envs.step (lines 178-195)

After reshaping the actions (lines 179-182, irrelevant to these claims), the
method spawns one step task per environment, joins, and evaluates
`obs, reward, done, info = [np.asarray(e) for e in zip(*results)]`.
`zip(*results)` raises `TypeError` when some slot's result is `None` (a
failed task), and the 4-way unpacking raises `ValueError` when there are no
results at all.  Then `self.dones_index = np.where(done)[0]`. -/

/-- Models `zip(*results)`: fails (with Python's TypeError) as soon as some
argument is `None`, otherwise yields all the tuples. -/
def collectResults : List (Option α) → Option (List α)
  | [] => some []
  | none :: _ => none
  | some a :: rest => (collectResults rest).map (a :: ·)

/-- gym_envs.step, from the thread pool onward: each environment's outcome of
`step(action_i)` is given in slot order as `(obs, reward, done, info)`.
Returns the four channel batches and the recomputed `dones_index`
(`np.where(done)[0]`: the ascending list of slots whose done flag is true),
or the Python error the aggregation raises. -/
def gym_step (steps : List (Except PyError (σ × ρ × Bool × ι))) :
    Except PyError ((List σ × List ρ × List Bool × List ι) × DonesIndex) :=
  let results := steps.map (fun t => (FakeMultiThread.run t).get_result)
  match collectResults results with
  | none => .error (.typeError "zip argument must support iteration")
  | some rs =>
    if rs.isEmpty then .error (.valueError "not enough values to unpack")
    else
      let obs := rs.map (fun r => r.1)
      let reward := rs.map (fun r => r.2.1)
      let done := rs.map (fun r => r.2.2.1)
      let info := rs.map (fun r => r.2.2.2)
      .ok ((obs, reward, done, info),
        .ndarray ((List.range done.length).filter (fun i => done.getD i false)))

/-- gym_envs.step as a transition on the manager's `dones_index` state: the
method overwrites `self.dones_index` without ever reading it, so the prior
value is ignored. -/
def gym_envs_step (_prior : DonesIndex)
    (steps : List (Except PyError (σ × ρ × Bool × ι))) :
    Except PyError ((List σ × List ρ × List Bool × List ι) × DonesIndex) :=
  gym_step steps

/-! ## gym_envs.partial_reset (lines 197-207)

`for i in self.dones_index` spawns one reset task per done slot; after
joining, the batch is built by
`[threadpool[i].get_result() for i in range(self.dones_index.shape[0])]`.
Evaluating `self.dones_index.shape` raises `AttributeError` when the field
is the Python list assigned by `reset`.  Nothing in the method assigns
`self.dones_index`. -/

/-- gym_envs.partial_reset: takes each environment's `reset()` outcome (in
slot order) and the current `dones_index`.  Returns the observation batch or
the Python error, the list of slots whose reset task was spawned, and the
`dones_index` after the call (the method never assigns it).  A slot outside
the environment list would raise IndexError in Python; such slots cannot
arise from `step`, and the embedding keeps them as a failing task. -/
def partial_reset (resets : List (Except PyError σ)) (di : DonesIndex) :
    Except PyError (List (Option σ)) × List Nat × DonesIndex :=
  match di with
  | .pylist l =>
      (.error (.attributeError "list object has no attribute shape"), l, di)
  | .ndarray l =>
      let pool := l.map (fun i =>
        FakeMultiThread.run (resets.getD i (.error .indexError)))
      (.ok ((List.range l.length).map
        (fun j => (pool.getD j ⟨none⟩).get_result)), l, di)

/-! ## gym_envs._get_render_index (lines 122-145)

For a list specifier, after the all-int assert the code evaluates
`min(index)` where the name `index` is never defined in that scope, so a
NameError is raised before any bounds check and before `render_index` is
assigned.  For a string specifier not among `first`/`last`/`all`,
`a, b = render_mode.split('_')` raises ValueError unless the string splits
into exactly two parts; `int(b)` is only evaluated when `a == 'random'`
(short-circuit) and raises ValueError on a non-integer literal; and when the
condition `0 < int(b) <= n` is false the method simply falls through,
leaving `self.render_index` unassigned.  The final `raise Exception(...)`
sits on the isinstance chain, unreachable after the line-126 assert. -/

/-- A render-mode specifier: a Python list of ints or a string (the only two
shapes admitted by the assert at line 126). -/
inductive RenderMode
  | list (l : List Int)
  | str (s : String)
  deriving DecidableEq, Repr

/-- Splits a character list on every occurrence of `sep`, keeping empty
parts, as Python's `str.split(sep)` does. -/
def splitChars (sep : Char) : List Char → List (List Char)
  | [] => [[]]
  | c :: rest =>
    match splitChars sep rest with
    | [] => [[]]
    | part :: parts =>
      if c = sep then [] :: part :: parts else (c :: part) :: parts

/-- Python `render_mode.split('_')`. -/
def pySplit (s : String) : List String :=
  (splitChars '_' s.data).map String.mk

/-- Accumulates decimal digits; a non-digit character makes the whole parse
fail. -/
def parseDigits (acc : Nat) : List Char → Option Nat
  | [] => some acc
  | c :: rest =>
    if c.isDigit then parseDigits (10 * acc + (c.toNat - 48)) rest else none

/-- Python `int(b)` restricted to the strings at issue (those with no
surrounding whitespace and no leading plus sign, which Python would also
accept): an optional minus sign followed by at least one decimal digit
parses to the integer; anything else raises ValueError. -/
def pyInt (b : String) : Option Int :=
  match b.data with
  | [] => none
  | '-' :: rest =>
      if rest.isEmpty then none
      else (parseDigits 0 rest).map (fun m => -(m : Int))
  | cs => (parseDigits 0 cs).map (fun m => (m : Int))

/-- gym_envs._get_render_index.  `sample` stands for `random.sample(range n) k`
(a nondeterministic draw, supplied as a parameter).  Returns `some l` when
`self.render_index` is assigned the list `l`, `none` when the method returns
without assigning it, and a Python error when it raises. -/
def get_render_index (sample : Nat → Nat → List Int)
    (render_mode : RenderMode) (n : Nat) :
    Except PyError (Option (List Int)) :=
  match render_mode with
  | .list _ =>
      -- the all-int assert holds by typing; `min(index)` then reads the
      -- undefined name `index` and raises before any bounds check
      .error (.nameError "index")
  | .str s =>
      if s = "first" then .ok (some [0])
      else if s = "last" then .ok (some [-1])
      else if s = "all" then .ok (some ((List.range n).map Int.ofNat))
      else
        match pySplit s with
        | [a, b] =>
            if a = "random" then
              match pyInt b with
              | none => .error (.valueError "invalid literal for int")
              | some k =>
                  if 0 < k ∧ k ≤ (n : Int) then .ok (some (sample n k.toNat))
                  else .ok none
            else .ok none
        | _ => .error (.valueError "not enough values to unpack")

/-! ## gym_envs.render (lines 147-151)

`[self.envs[i].render() for i in self.render_index]` indexes the Python list
of environments, so a negative index counts from the end. -/

/-- Normalisation of a Python list index: a negative index counts from the
end of the list. -/
def pyIdx (n : Nat) (i : Int) : Int :=
  if i < 0 then i + n else i

/-- Python list indexing `l[i]`: negative indices count from the end, and an
index out of range raises IndexError. -/
def pyGet (l : List α) (i : Int) : Except PyError α :=
  if 0 ≤ pyIdx l.length i then
    match l[(pyIdx l.length i).toNat]? with
    | some x => .ok x
    | none => .error .indexError
  else .error .indexError

/-- gym_envs.render: looks up `envs[i]` for each `i` in `render_index`, in
order; returns the environments whose `render()` is invoked, or the Python
error raised by the first out-of-range lookup. -/
def gym_render (envs : List ε) : List Int → Except PyError (List ε)
  | [] => .ok []
  | i :: rest =>
    match pyGet envs i with
    | .error e => .error e
    | .ok x =>
      match gym_render envs rest with
      | .error e => .error e
      | .ok xs => .ok (x :: xs)

/-! ## gym_envs._initialize (lines 79-116)

The method asserts (line 80) that both spaces are `Box` or `Discrete`,
classifies the observation space, classifies the action space (a `Box` must
have rank 1; a `Tuple` must consist of `Discrete` slots — a branch the
line-80 assert makes unreachable; anything else is `discrete`), records the
reward threshold, and calls `env.close()` as its last statement, after every
assert. -/

/-- A gym space as classified by `_initialize`: a `Box` with its shape and
bound arrays, a `Discrete` with its cardinality, or a `Tuple` of spaces. -/
inductive Space
  | box (shape : List Nat) (high low : List Int)
  | discrete (n : Nat)
  | tuple (items : List Space)

/-- The isinstance check of line 80: the space is a `Box` or a `Discrete`. -/
def Space.isBoxOrDiscrete : Space → Bool
  | .box _ _ _ => true
  | .discrete _ => true
  | .tuple _ => false

/-- The `.shape` attribute read at line 89: a Box carries its shape and a
gym `Discrete` has the empty shape `()`.  A Tuple space never reaches this
read (excluded by the line-80 assert). -/
def Space.shape : Space → List Nat
  | .box s _ _ => s
  | .discrete _ => []
  | .tuple _ => []

/-- The fields `_initialize` assigns on `self`, plus the reward threshold
read from the prototype's spec. -/
structure SpaceDescriptor where
  s_dim : Nat
  obs_high : Option (List Int)
  obs_low : Option (List Int)
  obs_type : String
  visual_sources : Nat
  visual_resolution : List Nat
  action_type : String
  is_continuous : Bool
  a_dim_or_list : List Nat
  reward_threshold : Option Int
  deriving DecidableEq, Repr

/-- Lines 100-113, the action-space classification block: a rank-1 Box is
`continuous` (a Box of any other rank fails the line-101 assert); a Tuple of
all-Discrete slots is `Tuple(Discrete)` with the per-slot counts (mixed
tuples fail the line-106 assert); a Discrete is `discrete` with `[n]`.
Yields `(action_type, is_continuous, a_dim_or_list)`. -/
def classifyAction : Space → Except PyError (String × Bool × List Nat)
  | .box shape _ _ =>
      if shape.length = 1 then .ok ("continuous", true, shape)
      else .error (.assertionError
        "if action space is continuous, the shape length of action must equal to 1")
  | .tuple items =>
      if items.all (fun s => match s with | .discrete _ => true | _ => false) then
        .ok ("Tuple(Discrete)", false,
          items.map (fun s => match s with | .discrete n => n | _ => 0))
      else .error (.assertionError
        "if action space is Tuple, each item in it must have type Discrete")
  | .discrete n => .ok ("discrete", false, [n])

/-- gym_envs._initialize (source name `_initialize`): classifies the
prototype's observation and action spaces.  Returns the descriptor or the
Python error, paired with whether `env.close()` was executed — the close is
the method's last statement, after all asserts. -/
def classifySpaces (obsSpace actSpace : Space) (reward_threshold : Option Int) :
    Except PyError SpaceDescriptor × Bool :=
  if ¬ (obsSpace.isBoxOrDiscrete ∧ actSpace.isBoxOrDiscrete) then
    (.error (.assertionError
      "action_space and observation_space must be one of available_type"), false)
  else
    -- process observation (lines 82-96)
    let (s_dim, obs_high, obs_low) :=
      match obsSpace with
      | .box shape high low =>
          (if shape.length = 1 then shape.headD 0 else 0, some high, some low)
      | .discrete n => (n, none, none)
      | .tuple _ => (0, none, none)  -- unreachable: excluded by the assert above
    let (obs_type, visual_sources, visual_resolution) :=
      if obsSpace.shape.length = 3 then ("visual", 1, obsSpace.shape)
      else ("vector", 0, ([] : List Nat))
    -- process action (lines 99-113), then reward threshold and close
    match classifyAction actSpace with
    | .error e => (.error e, false)
    | .ok (action_type, is_cont, a_dims) =>
        (.ok { s_dim := s_dim, obs_high := obs_high, obs_low := obs_low,
               obs_type := obs_type, visual_sources := visual_sources,
               visual_resolution := visual_resolution,
               action_type := action_type, is_continuous := is_cont,
               a_dim_or_list := a_dims,
               reward_threshold := reward_threshold }, true)

/-! ## DQN.__init__ (dqn.py lines 13-55)

The constructor's first statement is
`assert not is_continuous, 'dqn only support discrete action space'`.
The remainder of construction (the `Off_Policy` superclass, network and
optimizer building) lives outside this repository and is abstracted as the
computation `rest` that runs only when the assert passes. -/

/-- DQN.__init__ restricted to its assertion gate: when `is_continuous` is
true the assert raises before anything else runs; otherwise construction
proceeds with the rest of the constructor body. -/
def DQN_init (is_continuous : Bool) (rest : Except PyError α) :
    Except PyError α :=
  if is_continuous then
    .error (.assertionError "dqn only support discrete action space")
  else rest

/-! ## Helper lemmas -/

/-- zip(*results) fails whenever some slot's result is Python None. -/
theorem collectResults_eq_none {α : Type} {l : List (Option α)}
    (h : none ∈ l) : collectResults l = none := by
  induction l with
  | nil => cases h
  | cons a t ih =>
    cases a with
    | none => rfl
    | some x =>
      have ht : none ∈ t := by
        cases h with
        | tail _ h => exact h
      simp [collectResults, ih ht]

/-! ## Claims -/

/-- C1 counterexample: with a single environment whose reset task raises,
the batched reset() returns normally, with the Python-None placeholder in
the failed slot — the call neither aborts nor reports the failure. -/
theorem C1_cex :
    gym_reset [(Except.error (.valueError "boom") : Except PyError Nat)]
      = ([none], .pylist []) := rfl

/-- C1 (amended): a raising task's get_result() substitutes Python None for
the slot; a batched reset() therefore returns normally with None
placeholders instead of failing, while a batched step() with a failed slot
does abort — but with the aggregation's TypeError, not the instance's own
error. -/
theorem C1_thm (resets : List (Except PyError Nat))
    (steps : List (Except PyError (Nat × Int × Bool × Unit)))
    (e : PyError) (hmem : Except.error e ∈ steps) :
    (gym_reset resets).1 = resets.map Except.toOption ∧
    gym_step steps = .error (.typeError "zip argument must support iteration") := by
  constructor
  · rfl
  · have hnone : none ∈ steps.map
        (fun t => (FakeMultiThread.run t).get_result) :=
      List.mem_map.mpr ⟨Except.error e, hmem, rfl⟩
    simp [gym_step, collectResults_eq_none hnone]

/-- C1 witness: the amended statement at one concrete failing slot. -/
theorem C1_thm_witness :
    (gym_reset [(Except.error (PyError.valueError "x") : Except PyError Nat)]).1
        = [(Except.error (PyError.valueError "x") : Except PyError Nat)].map
            Except.toOption ∧
    gym_step [(Except.error (PyError.valueError "x") :
        Except PyError (Nat × Int × Bool × Unit))]
      = .error (.typeError "zip argument must support iteration") :=
  C1_thm [Except.error (PyError.valueError "x")]
    [Except.error (PyError.valueError "x")] (PyError.valueError "x")
    (by simp)

/-- C2: the list branch of _get_render_index reads the undefined name
`index`, so even the in-range list specifier [0, 2] with five instances
raises NameError instead of being validated and accepted. -/
theorem C2_eval :
    get_render_index (fun _ k => (List.range k).map Int.ofNat)
      (.list [0, 2]) 5 = .error (.nameError "index") := rfl

/-- C3 counterexample: with done_indices = [0] left by a step, a first
partial_reset() hands back dones_index unchanged, so a second
partial_reset() before any step again spawns a reset task for slot 0 and
returns a one-element batch — not the empty no-op batch the claim
requires. -/
theorem C3_cex :
    partial_reset [(Except.ok 7 : Except PyError Nat)]
        ((partial_reset [(Except.ok 7 : Except PyError Nat)]
          (.ndarray [0])).2.2)
      = (.ok [some 7], [0], .ndarray [0]) ∧
    (Except.ok [some 7] : Except PyError (List (Option Nat))) ≠ .ok [] :=
  ⟨rfl, by simp⟩

/-- C3 (amended): partial_reset never assigns dones_index, so calling it
again before another step() repeats the same call exactly: it spawns reset
tasks for the same done slots and returns a batch of |dones_index|
observations — empty only when dones_index itself is empty. -/
theorem C3_thm (resets : List (Except PyError Nat)) (l : List Nat) :
    (partial_reset resets (.ndarray l)).2.2 = .ndarray l ∧
    partial_reset resets ((partial_reset resets (.ndarray l)).2.2)
        = partial_reset resets (.ndarray l) ∧
    (partial_reset resets (.ndarray l)).2.1 = l ∧
    ∃ batch, (partial_reset resets (.ndarray l)).1 = .ok batch ∧
      batch.length = l.length :=
  ⟨rfl, rfl, rfl, _, rfl, by simp⟩

/-- C4: reset() assigns the Python list [] to dones_index, and
partial_reset builds its batch from dones_index.shape, which a list does
not have — so partial_reset immediately after reset() raises AttributeError
instead of returning an empty batch (an empty numpy dones_index left by
step does yield the empty batch). -/
theorem C4_eval :
    (gym_reset [(Except.ok 3 : Except PyError Nat)]).2 = .pylist [] ∧
    (partial_reset [(Except.ok 3 : Except PyError Nat)] (.pylist [])).1
        = .error (.attributeError "list object has no attribute shape") ∧
    (partial_reset [(Except.ok 3 : Except PyError Nat)] (.ndarray [])).1
        = .ok [] :=
  ⟨rfl, rfl, rfl⟩

/-- C5: the line-80 assert admits only Box or Discrete action spaces, so a
Tuple of Discrete slots fails classification with that AssertionError
before the Tuple(Discrete) branch of lines 105-109 can run (and the
prototype is not closed). -/
theorem C5_eval :
    classifySpaces (.discrete 4) (.tuple [.discrete 2, .discrete 3]) none
      = (.error (.assertionError
          "action_space and observation_space must be one of available_type"),
         false) := rfl

/-- C6 counterexample: when classification fails (here on a rank-2 Box
action space), env.close() — the method's last statement, with no
try/finally — is never reached, so the prototype is not released. -/
theorem C6_cex :
    (classifySpaces (.discrete 4) (.box [2, 2] [] []) none).2 = false ∧
    (classifySpaces (.discrete 4) (.box [2, 2] [] []) none).1
      = .error (.assertionError
          "if action space is continuous, the shape length of action must equal to 1") :=
  ⟨rfl, rfl⟩

/-- C6 (amended): env.close() is the last statement of _initialize with no
try/finally, so the prototype is closed exactly when classification
succeeds — never when it raises. -/
theorem C6_thm (obsSpace actSpace : Space) (rt : Option Int) :
    (classifySpaces obsSpace actSpace rt).2 = true ↔
      ∃ d, (classifySpaces obsSpace actSpace rt).1 = Except.ok d := by
  unfold classifySpaces
  split
  · simp
  · cases hc : classifyAction actSpace with
    | error e => simp [hc]
    | ok v =>
      obtain ⟨a, b, c⟩ := v
      simp [hc]

/-- C7 counterexample: resolving "last" with five instances stores the
Python index [-1], not [4] = [N - 1] as the claim states. -/
theorem C7_cex :
    get_render_index (fun _ _ => []) (.str "last") 5 = .ok (some [-1]) ∧
    (some [(-1 : Int)] : Option (List Int)) ≠ some [4] :=
  ⟨rfl, by simp⟩

/-- C7 (amended): "last" resolves to the render index [-1]; via Python's
negative list indexing, render() then looks up exactly the last instance,
slot N - 1 — so the rendered slot is N - 1 but the stored index is -1. -/
theorem C7_thm (sample : Nat → Nat → List Int) (envs : List Nat)
    (h : envs ≠ []) :
    get_render_index sample (.str "last") envs.length = .ok (some [-1]) ∧
    gym_render envs [-1] = .ok [envs.getLast h] := by
  have hpos : 0 < envs.length := List.length_pos.mpr h
  constructor
  · rfl
  · have hidx : pyIdx envs.length (-1) = (envs.length : Int) - 1 := by
      simp only [pyIdx]
      rw [if_pos (show (-1 : Int) < 0 by norm_num)]
      omega
    have hp : pyGet envs (-1) = .ok (envs.getLast h) := by
      unfold pyGet
      rw [if_pos (show 0 ≤ pyIdx envs.length (-1) by rw [hidx]; omega)]
      rw [show (pyIdx envs.length (-1)).toNat = envs.length - 1 by
        rw [hidx]; omega]
      rw [← List.getLast?_eq_getElem?, List.getLast?_eq_getLast envs h]
    simp [gym_render, hp]

/-- C7 witness: the amended statement at a concrete two-instance manager. -/
theorem C7_thm_witness :
    get_render_index (fun _ _ => []) (.str "last")
        ([10, 20] : List Nat).length = .ok (some [-1]) ∧
    gym_render ([10, 20] : List Nat) [-1]
        = .ok [([10, 20] : List Nat).getLast (by simp)] :=
  C7_thm (fun _ _ => []) [10, 20] (by simp)

/-- C8 counterexample: "random_7" with five instances is outside every
accepted specifier form (7 > 5), yet _get_render_index returns without
raising anything — the failed range test just falls through, leaving
render_index unassigned. -/
theorem C8_cex :
    get_render_index (fun _ _ => []) (.str "random_7") 5 = .ok none := rfl

/-- C8 (amended): a string with no underscore-separated pair, such as
"bogus", raises ValueError from the tuple unpacking (not a dedicated
InvalidRenderSpec kind); a pair whose first part is not "random", such as
"foo_bar", and a "random_K" whose K is out of range both return silently
without assigning render_index rather than failing. -/
theorem C8_thm (sample : Nat → Nat → List Int) (n : Nat) (h : n < 7) :
    get_render_index sample (.str "bogus") n
        = .error (.valueError "not enough values to unpack") ∧
    get_render_index sample (.str "random_7") n = .ok none ∧
    get_render_index sample (.str "foo_bar") n = .ok none := by
  refine ⟨rfl, ?_, rfl⟩
  show (if (0 : Int) < 7 ∧ (7 : Int) ≤ (n : Int) then
          Except.ok (some (sample n (Int.toNat 7))) else Except.ok none)
        = Except.ok none
  have h7 : ¬ ((0 : Int) < 7 ∧ (7 : Int) ≤ (n : Int)) := by omega
  rw [if_neg h7]

/-- C8 witness: the amended statement at five instances. -/
theorem C8_thm_witness :
    get_render_index (fun _ _ => []) (.str "bogus") 5
        = .error (.valueError "not enough values to unpack") ∧
    get_render_index (fun _ _ => []) (.str "random_7") 5 = .ok none ∧
    get_render_index (fun _ _ => []) (.str "foo_bar") 5 = .ok none :=
  C8_thm (fun _ _ => []) 5 (by norm_num)

/-- C9: a step() call that completes overwrites dones_index — without ever
reading its previous value — with np.where(done)[0]: exactly the slots
whose returned done flag is true, listed in ascending order. -/
theorem C9_thm (d d' : DonesIndex)
    (steps : List (Except PyError (Nat × Int × Bool × Unit)))
    (out : List Nat × List Int × List Bool × List Unit) (l : List Nat)
    (h : gym_step steps = .ok (out, .ndarray l)) :
    gym_envs_step d steps = gym_envs_step d' steps ∧
    (∀ i, i ∈ l ↔ i < out.2.2.1.length ∧ out.2.2.1.getD i false = true) ∧
    List.Sorted (· < ·) l := by
  refine ⟨rfl, ?_⟩
  simp only [gym_step] at h
  split at h
  · exact absurd h (by simp)
  · split at h
    · exact absurd h (by simp)
    · rw [Except.ok.injEq, Prod.mk.injEq, DonesIndex.ndarray.injEq] at h
      obtain ⟨hout, hl⟩ := h
      subst hout
      subst hl
      constructor
      · intro i
        simp [List.mem_filter, List.mem_range]
      · exact (List.sorted_lt_range _).filter _

/-- C9 witness: a two-slot step where only slot 0 reports done. -/
theorem C9_thm_witness :
    gym_envs_step (.pylist [])
        [(Except.ok (5, 1, true, ()) : Except PyError (Nat × Int × Bool × Unit)),
         Except.ok (6, 2, false, ())]
      = gym_envs_step (.ndarray [9])
        [(Except.ok (5, 1, true, ()) : Except PyError (Nat × Int × Bool × Unit)),
         Except.ok (6, 2, false, ())] ∧
    (∀ i, i ∈ [0] ↔
      i < (([5, 6], [1, 2], [true, false], [(), ()]) :
        List Nat × List Int × List Bool × List Unit).2.2.1.length ∧
      (([5, 6], [1, 2], [true, false], [(), ()]) :
        List Nat × List Int × List Bool × List Unit).2.2.1.getD i false = true) ∧
    List.Sorted (· < ·) [0] :=
  C9_thm (.pylist []) (.ndarray [9])
    [Except.ok (5, 1, true, ()), Except.ok (6, 2, false, ())]
    ([5, 6], [1, 2], [true, false], [(), ()]) [0] rfl

/-- C10: DQN.__init__ asserts `not is_continuous` before anything else, so
construction with is_continuous = true always fails with that
AssertionError regardless of the rest of the constructor, while with
is_continuous = false the assert passes and construction proceeds as the
rest of the constructor body dictates. -/
theorem C10_thm :
    (∀ rest : Except PyError Unit, DQN_init true rest
        = .error (.assertionError "dqn only support discrete action space")) ∧
    (∀ rest : Except PyError Unit, DQN_init false rest = rest) :=
  ⟨fun _ => rfl, fun _ => rfl⟩

end RLs
